import Mathlib

/-!
Verification development for the `az-scout-plugin-latency-stats` repository.

The module `src/az_scout_latency_stats/latency.py` keeps a static symmetric
table of inter-region round-trip times (`_LATENCY_PAIRS`, populated by the
`_add` calls at import time), a runtime cache `_cache` that no code in the
repository ever writes to, and three public query functions: `get_rtt_ms`,
`list_known_pairs` and `get_latency_matrix`.  This file embeds those
definitions shallowly and proves the specified properties about them.

Modelling conventions:
* Python `dict[tuple[str, str], int]` becomes an association list with
  Python's update semantics (`dictInsert` updates the value in place at an
  existing key and appends fresh keys, preserving insertion order, which is
  also the iteration order of `.items()`).
* Python `str.lower()` / `str.strip()` are modelled on the ASCII range the
  dataset lives in: `pyLowerChar` maps `A`–`Z` to `a`–`z` and fixes every
  other character, `pyStripL` removes leading and trailing ASCII whitespace.
* `time.monotonic()` becomes an explicit `now : Nat` argument; it is only
  consulted on the cache path, and the cache is empty because nothing in the
  repository writes to it.
* `sorted` / `min` / `max` on strings use Python's code-point lexicographic
  order, modelled by `pyStrLt`; `sorted` is modelled by a stable insertion
  sort (`sortEntries`), which agrees with any stable sort by the same key.
-/

namespace AzLatency

/-! ### Region-identifier normalization (`region.lower().strip()`) -/

/-- ASCII lower-casing of one character, as Python `str.lower` acts on the
ASCII range of the dataset: `A`–`Z` (code points 65–90) map 32 code points up,
everything else is fixed. -/
def pyLowerChar (c : Char) : Char :=
  if 65 ≤ c.toNat ∧ c.toNat ≤ 90 then Char.ofNat (c.toNat + 32) else c

/-- ASCII whitespace recognised by Python `str.strip()`. -/
def pyIsSpace (c : Char) : Bool :=
  c == ' ' || c == '\t' || c == '\n' || c == '\r' || c == '\x0b' || c == '\x0c'

/-- Remove leading and trailing whitespace from a character list
(Python `str.strip()`). -/
def pyStripL (l : List Char) : List Char :=
  ((l.dropWhile pyIsSpace).reverse.dropWhile pyIsSpace).reverse

/-- Python `s.lower()`. -/
def pyLower (s : String) : String :=
  ⟨s.data.map pyLowerChar⟩

/-- Python `s.strip()`. -/
def pyStrip (s : String) : String :=
  ⟨pyStripL s.data⟩

/-- The normalization applied to both arguments of `get_rtt_ms`:
`region.lower().strip()`. -/
def pyNormalize (s : String) : String :=
  pyStrip (pyLower s)

/-! ### Python string comparison (code-point lexicographic `<`) -/

/-- Python `<` on single characters: code-point comparison. -/
def pyCharLt (c d : Char) : Bool :=
  decide (c.toNat < d.toNat)

/-- Python `<` on lists of characters: lexicographic by code point. -/
def pyStrLtL : List Char → List Char → Bool
  | [], [] => false
  | [], _ :: _ => true
  | _ :: _, [] => false
  | c :: cs, d :: ds => if c = d then pyStrLtL cs ds else pyCharLt c d

/-- Python `<` on strings. -/
def pyStrLt (a b : String) : Bool :=
  pyStrLtL a.data b.data

/-- Python `<=` on strings. -/
def pyStrLe (a b : String) : Bool :=
  pyStrLt a b || a == b

/-- Python `min` of two strings: keeps the first argument unless the second
compares strictly smaller. -/
def minStr (a b : String) : String :=
  if pyStrLt b a then b else a

/-- Python `max` of two strings: keeps the first argument unless the second
compares strictly larger. -/
def maxStr (a b : String) : String :=
  if pyStrLt a b then b else a

/-! ### The latency dictionary -/

/-- The type of `_LATENCY_PAIRS`: a Python `dict[tuple[str, str], int]`,
modelled as an association list in insertion order. -/
abbrev Dict := List ((String × String) × Nat)

/-- Python dict assignment `d[k] = v`: update the value in place at the first
(and, for lists built only by `dictInsert`, the only) occurrence of `k`, or
append a fresh binding at the end. -/
def dictInsert : Dict → String × String → Nat → Dict
  | [], k, v => [(k, v)]
  | e :: d, k, v => if e.1 == k then (k, v) :: d else e :: dictInsert d k v

/-- Python `d.get(k)`. -/
def dictGet (d : Dict) (k : String × String) : Option Nat :=
  match d.find? (fun e => e.1 == k) with
  | some e => some e.2
  | none => none

/-- `_add(a, b, rtt)`: register a symmetric latency pair by storing both
orderings. -/
def _add (d : Dict) (a b : String) (rtt : Nat) : Dict :=
  dictInsert (dictInsert d (a, b) rtt) (b, a) rtt

/-- The arguments of the 114 module-level `_add(...)` calls in
`latency.py`, in source order. -/
def latencyData : List (String × String × Nat) := [
  ("francecentral", "francesouth", 10),
  ("francecentral", "westeurope", 12),
  ("francecentral", "northeurope", 22),
  ("francecentral", "germanywestcentral", 10),
  ("francecentral", "switzerlandnorth", 9),
  ("francecentral", "swedencentral", 32),
  ("francecentral", "uksouth", 10),
  ("francecentral", "ukwest", 12),
  ("francecentral", "norwayeast", 34),
  ("francecentral", "polandcentral", 24),
  ("francecentral", "italynorth", 12),
  ("francecentral", "spaincentral", 16),
  ("westeurope", "northeurope", 14),
  ("westeurope", "germanywestcentral", 8),
  ("westeurope", "switzerlandnorth", 10),
  ("westeurope", "swedencentral", 30),
  ("westeurope", "uksouth", 8),
  ("westeurope", "ukwest", 10),
  ("westeurope", "norwayeast", 32),
  ("westeurope", "francesouth", 16),
  ("westeurope", "polandcentral", 22),
  ("westeurope", "italynorth", 14),
  ("westeurope", "spaincentral", 20),
  ("northeurope", "uksouth", 12),
  ("northeurope", "ukwest", 14),
  ("northeurope", "swedencentral", 24),
  ("northeurope", "germanywestcentral", 18),
  ("northeurope", "norwayeast", 26),
  ("northeurope", "switzerlandnorth", 22),
  ("germanywestcentral", "switzerlandnorth", 6),
  ("germanywestcentral", "swedencentral", 26),
  ("germanywestcentral", "polandcentral", 14),
  ("germanywestcentral", "italynorth", 12),
  ("germanywestcentral", "norwayeast", 28),
  ("swedencentral", "norwayeast", 12),
  ("swedencentral", "polandcentral", 22),
  ("swedencentral", "switzerlandnorth", 30),
  ("uksouth", "ukwest", 6),
  ("uksouth", "northeurope", 12),
  ("switzerlandnorth", "switzerlandwest", 4),
  ("switzerlandnorth", "italynorth", 8),
  ("norwayeast", "norwaywest", 8),
  ("eastus", "eastus2", 4),
  ("eastus", "centralus", 20),
  ("eastus", "westus", 62),
  ("eastus", "westus2", 62),
  ("eastus", "westus3", 56),
  ("eastus", "northcentralus", 18),
  ("eastus", "southcentralus", 28),
  ("eastus", "westcentralus", 36),
  ("eastus", "canadacentral", 16),
  ("eastus", "canadaeast", 20),
  ("eastus2", "centralus", 18),
  ("eastus2", "westus", 60),
  ("eastus2", "westus2", 60),
  ("eastus2", "westus3", 54),
  ("eastus2", "northcentralus", 16),
  ("eastus2", "southcentralus", 26),
  ("eastus2", "canadacentral", 18),
  ("centralus", "northcentralus", 6),
  ("centralus", "southcentralus", 16),
  ("centralus", "westcentralus", 14),
  ("centralus", "westus", 44),
  ("centralus", "westus2", 42),
  ("centralus", "westus3", 38),
  ("westus", "westus2", 6),
  ("westus", "westus3", 12),
  ("westus", "northcentralus", 40),
  ("westus", "southcentralus", 36),
  ("westus2", "westus3", 10),
  ("westus2", "northcentralus", 38),
  ("westus2", "southcentralus", 34),
  ("northcentralus", "southcentralus", 22),
  ("northcentralus", "westcentralus", 18),
  ("northcentralus", "canadacentral", 14),
  ("southcentralus", "westcentralus", 20),
  ("southcentralus", "westus3", 30),
  ("canadacentral", "canadaeast", 8),
  ("eastasia", "southeastasia", 32),
  ("eastasia", "japaneast", 30),
  ("eastasia", "japanwest", 34),
  ("eastasia", "koreacentral", 28),
  ("eastasia", "koreasouth", 30),
  ("eastasia", "australiaeast", 110),
  ("southeastasia", "australiaeast", 78),
  ("southeastasia", "australiasoutheast", 80),
  ("southeastasia", "japaneast", 60),
  ("southeastasia", "koreacentral", 56),
  ("southeastasia", "centralindia", 50),
  ("japaneast", "japanwest", 8),
  ("japaneast", "koreacentral", 20),
  ("koreacentral", "koreasouth", 6),
  ("australiaeast", "australiasoutheast", 6),
  ("australiaeast", "australiacentral", 4),
  ("centralindia", "southindia", 12),
  ("centralindia", "westindia", 16),
  ("eastus", "westeurope", 80),
  ("eastus", "northeurope", 76),
  ("eastus", "uksouth", 74),
  ("eastus", "francecentral", 82),
  ("westus2", "eastasia", 140),
  ("westus2", "japaneast", 100),
  ("westus2", "southeastasia", 158),
  ("westeurope", "eastasia", 180),
  ("westeurope", "southeastasia", 170),
  ("westeurope", "centralindia", 110),
  ("uaenorth", "uaecentral", 4),
  ("uaenorth", "westeurope", 100),
  ("uaenorth", "centralindia", 50),
  ("southafricanorth", "southafricawest", 8),
  ("southafricanorth", "westeurope", 140),
  ("brazilsouth", "brazilsoutheast", 6),
  ("brazilsouth", "eastus", 120),
  ("brazilsouth", "eastus2", 118)]

/-- `_LATENCY_PAIRS` after the module-level `_add` calls have run. -/
def _LATENCY_PAIRS : Dict :=
  latencyData.foldl (fun d t => _add d t.1 t.2.1 t.2.2) []

/-! ### The runtime cache -/

/-- The type of `_cache`: a Python `dict[str, tuple[float, int | None]]`
mapping a joined key to a (timestamp, value) pair, modelled as an association
list with `Nat` timestamps. -/
abbrev Cache := List (String × Nat × Option Nat)

/-- `_CACHE_TTL = 86400`. -/
def _CACHE_TTL : Nat := 86400

/-- `_cache`: no statement anywhere in the repository writes to this dict, so
after module initialization it is the empty dict. -/
def _cache : Cache := []

/-- `_cache_key(a, b)`: `":".join(sorted([a.lower(), b.lower()]))` in effect
(the source sorts the two lowered names and joins them with a colon). -/
def _cache_key (a b : String) : String :=
  let la := pyLower a
  let lb := pyLower b
  if pyStrLt lb la then lb ++ ":" ++ la else la ++ ":" ++ lb

/-! ### Public API -/

/-- Body of `get_rtt_ms`, parameterized by the module state it reads
(`pairs` for `_LATENCY_PAIRS`, `cache` for `_cache`) and by the current time
`now` (for `time.monotonic()`). -/
def get_rtt_ms_impl (pairs : Dict) (cache : Cache) (now : Nat)
    (region_a region_b : String) : Option Nat :=
  let a := pyNormalize region_a
  let b := pyNormalize region_b
  if a = b then some 0
  else
    match dictGet pairs (a, b) with
    | some rtt => some rtt
    | none =>
      match cache.find? (fun e => e.1 == _cache_key a b) with
      | some (_, ts, val) => if now - ts < _CACHE_TTL then val else none
      | none => none

/-- `get_rtt_ms(region_a, region_b)` reading the module-level dicts. -/
def get_rtt_ms (now : Nat) (region_a region_b : String) : Option Nat :=
  get_rtt_ms_impl _LATENCY_PAIRS _cache now region_a region_b

/-- An element of the list returned by `list_known_pairs`: the dict
`{"regionA": _, "regionB": _, "rttMs": _}`. -/
abbrev Entry := String × String × Nat

/-- One iteration of the deduplication loop in `list_known_pairs`: `seen` is
the set of canonical keys already emitted (a Python `set`, modelled as a
list queried with structural equality), `pairs` the output list so far. -/
def dedupPass (acc : List (String × String) × List Entry)
    (e : (String × String) × Nat) : List (String × String) × List Entry :=
  let key := (minStr e.1.1 e.1.2, maxStr e.1.1 e.1.2)
  if acc.1.contains key then acc
  else (acc.1 ++ [key], acc.2 ++ [(key.1, key.2, e.2)])

/-- Tuple-lexicographic `<=` on the sort key `(p["regionA"], p["regionB"])`
used by the final `sorted(...)` call. -/
def entryLe (p q : Entry) : Bool :=
  pyStrLt p.1 q.1 || (p.1 == q.1 && pyStrLe p.2.1 q.2.1)

/-- Insert an entry into an already sorted list, before the first entry its
key is `<=` to; folding this over the input is a stable sort. -/
def insertSorted (e : Entry) : List Entry → List Entry
  | [] => [e]
  | f :: r => if entryLe e f then e :: f :: r else f :: insertSorted e r

/-- Python `sorted(pairs, key=lambda p: (p["regionA"], p["regionB"]))`:
a stable sort by the tuple key, modelled by insertion sort. -/
def sortEntries (l : List Entry) : List Entry :=
  l.foldr insertSorted []

/-- Body of `list_known_pairs`, parameterized by the dict it reads. -/
def list_known_pairs_impl (pairs : Dict) : List Entry :=
  sortEntries (pairs.foldl dedupPass ([], [])).2

/-- `list_known_pairs()` reading the module-level dict. -/
def list_known_pairs : List Entry :=
  list_known_pairs_impl _LATENCY_PAIRS

/-- Body of `get_latency_matrix`, parameterized by the module state read by
the nested `get_rtt_ms` calls.  Returns the pair (`regions`, `matrix`). -/
def get_latency_matrix_impl (pairs : Dict) (cache : Cache) (now : Nat)
    (region_names : List String) : List String × List (List (Option Nat)) :=
  let normalised := region_names.map pyNormalize
  (normalised,
    normalised.map (fun a =>
      normalised.map (fun b => get_rtt_ms_impl pairs cache now a b)))

/-- `get_latency_matrix(region_names)` reading the module-level dicts. -/
def get_latency_matrix (now : Nat) (region_names : List String) :
    List String × List (List (Option Nat)) :=
  get_latency_matrix_impl _LATENCY_PAIRS _cache now region_names

/-! ### Explicit values of the module data, for fast evaluation in proofs -/

/-- The explicit value of `_LATENCY_PAIRS` (226 ordered bindings), proved
equal to the built dict in `LATENCY_PAIRS_eq` below. -/
def latencyTable : List ((String × String) × Nat) := [
  (("francecentral", "francesouth"), 10),
  (("francesouth", "francecentral"), 10),
  (("francecentral", "westeurope"), 12),
  (("westeurope", "francecentral"), 12),
  (("francecentral", "northeurope"), 22),
  (("northeurope", "francecentral"), 22),
  (("francecentral", "germanywestcentral"), 10),
  (("germanywestcentral", "francecentral"), 10),
  (("francecentral", "switzerlandnorth"), 9),
  (("switzerlandnorth", "francecentral"), 9),
  (("francecentral", "swedencentral"), 32),
  (("swedencentral", "francecentral"), 32),
  (("francecentral", "uksouth"), 10),
  (("uksouth", "francecentral"), 10),
  (("francecentral", "ukwest"), 12),
  (("ukwest", "francecentral"), 12),
  (("francecentral", "norwayeast"), 34),
  (("norwayeast", "francecentral"), 34),
  (("francecentral", "polandcentral"), 24),
  (("polandcentral", "francecentral"), 24),
  (("francecentral", "italynorth"), 12),
  (("italynorth", "francecentral"), 12),
  (("francecentral", "spaincentral"), 16),
  (("spaincentral", "francecentral"), 16),
  (("westeurope", "northeurope"), 14),
  (("northeurope", "westeurope"), 14),
  (("westeurope", "germanywestcentral"), 8),
  (("germanywestcentral", "westeurope"), 8),
  (("westeurope", "switzerlandnorth"), 10),
  (("switzerlandnorth", "westeurope"), 10),
  (("westeurope", "swedencentral"), 30),
  (("swedencentral", "westeurope"), 30),
  (("westeurope", "uksouth"), 8),
  (("uksouth", "westeurope"), 8),
  (("westeurope", "ukwest"), 10),
  (("ukwest", "westeurope"), 10),
  (("westeurope", "norwayeast"), 32),
  (("norwayeast", "westeurope"), 32),
  (("westeurope", "francesouth"), 16),
  (("francesouth", "westeurope"), 16),
  (("westeurope", "polandcentral"), 22),
  (("polandcentral", "westeurope"), 22),
  (("westeurope", "italynorth"), 14),
  (("italynorth", "westeurope"), 14),
  (("westeurope", "spaincentral"), 20),
  (("spaincentral", "westeurope"), 20),
  (("northeurope", "uksouth"), 12),
  (("uksouth", "northeurope"), 12),
  (("northeurope", "ukwest"), 14),
  (("ukwest", "northeurope"), 14),
  (("northeurope", "swedencentral"), 24),
  (("swedencentral", "northeurope"), 24),
  (("northeurope", "germanywestcentral"), 18),
  (("germanywestcentral", "northeurope"), 18),
  (("northeurope", "norwayeast"), 26),
  (("norwayeast", "northeurope"), 26),
  (("northeurope", "switzerlandnorth"), 22),
  (("switzerlandnorth", "northeurope"), 22),
  (("germanywestcentral", "switzerlandnorth"), 6),
  (("switzerlandnorth", "germanywestcentral"), 6),
  (("germanywestcentral", "swedencentral"), 26),
  (("swedencentral", "germanywestcentral"), 26),
  (("germanywestcentral", "polandcentral"), 14),
  (("polandcentral", "germanywestcentral"), 14),
  (("germanywestcentral", "italynorth"), 12),
  (("italynorth", "germanywestcentral"), 12),
  (("germanywestcentral", "norwayeast"), 28),
  (("norwayeast", "germanywestcentral"), 28),
  (("swedencentral", "norwayeast"), 12),
  (("norwayeast", "swedencentral"), 12),
  (("swedencentral", "polandcentral"), 22),
  (("polandcentral", "swedencentral"), 22),
  (("swedencentral", "switzerlandnorth"), 30),
  (("switzerlandnorth", "swedencentral"), 30),
  (("uksouth", "ukwest"), 6),
  (("ukwest", "uksouth"), 6),
  (("switzerlandnorth", "switzerlandwest"), 4),
  (("switzerlandwest", "switzerlandnorth"), 4),
  (("switzerlandnorth", "italynorth"), 8),
  (("italynorth", "switzerlandnorth"), 8),
  (("norwayeast", "norwaywest"), 8),
  (("norwaywest", "norwayeast"), 8),
  (("eastus", "eastus2"), 4),
  (("eastus2", "eastus"), 4),
  (("eastus", "centralus"), 20),
  (("centralus", "eastus"), 20),
  (("eastus", "westus"), 62),
  (("westus", "eastus"), 62),
  (("eastus", "westus2"), 62),
  (("westus2", "eastus"), 62),
  (("eastus", "westus3"), 56),
  (("westus3", "eastus"), 56),
  (("eastus", "northcentralus"), 18),
  (("northcentralus", "eastus"), 18),
  (("eastus", "southcentralus"), 28),
  (("southcentralus", "eastus"), 28),
  (("eastus", "westcentralus"), 36),
  (("westcentralus", "eastus"), 36),
  (("eastus", "canadacentral"), 16),
  (("canadacentral", "eastus"), 16),
  (("eastus", "canadaeast"), 20),
  (("canadaeast", "eastus"), 20),
  (("eastus2", "centralus"), 18),
  (("centralus", "eastus2"), 18),
  (("eastus2", "westus"), 60),
  (("westus", "eastus2"), 60),
  (("eastus2", "westus2"), 60),
  (("westus2", "eastus2"), 60),
  (("eastus2", "westus3"), 54),
  (("westus3", "eastus2"), 54),
  (("eastus2", "northcentralus"), 16),
  (("northcentralus", "eastus2"), 16),
  (("eastus2", "southcentralus"), 26),
  (("southcentralus", "eastus2"), 26),
  (("eastus2", "canadacentral"), 18),
  (("canadacentral", "eastus2"), 18),
  (("centralus", "northcentralus"), 6),
  (("northcentralus", "centralus"), 6),
  (("centralus", "southcentralus"), 16),
  (("southcentralus", "centralus"), 16),
  (("centralus", "westcentralus"), 14),
  (("westcentralus", "centralus"), 14),
  (("centralus", "westus"), 44),
  (("westus", "centralus"), 44),
  (("centralus", "westus2"), 42),
  (("westus2", "centralus"), 42),
  (("centralus", "westus3"), 38),
  (("westus3", "centralus"), 38),
  (("westus", "westus2"), 6),
  (("westus2", "westus"), 6),
  (("westus", "westus3"), 12),
  (("westus3", "westus"), 12),
  (("westus", "northcentralus"), 40),
  (("northcentralus", "westus"), 40),
  (("westus", "southcentralus"), 36),
  (("southcentralus", "westus"), 36),
  (("westus2", "westus3"), 10),
  (("westus3", "westus2"), 10),
  (("westus2", "northcentralus"), 38),
  (("northcentralus", "westus2"), 38),
  (("westus2", "southcentralus"), 34),
  (("southcentralus", "westus2"), 34),
  (("northcentralus", "southcentralus"), 22),
  (("southcentralus", "northcentralus"), 22),
  (("northcentralus", "westcentralus"), 18),
  (("westcentralus", "northcentralus"), 18),
  (("northcentralus", "canadacentral"), 14),
  (("canadacentral", "northcentralus"), 14),
  (("southcentralus", "westcentralus"), 20),
  (("westcentralus", "southcentralus"), 20),
  (("southcentralus", "westus3"), 30),
  (("westus3", "southcentralus"), 30),
  (("canadacentral", "canadaeast"), 8),
  (("canadaeast", "canadacentral"), 8),
  (("eastasia", "southeastasia"), 32),
  (("southeastasia", "eastasia"), 32),
  (("eastasia", "japaneast"), 30),
  (("japaneast", "eastasia"), 30),
  (("eastasia", "japanwest"), 34),
  (("japanwest", "eastasia"), 34),
  (("eastasia", "koreacentral"), 28),
  (("koreacentral", "eastasia"), 28),
  (("eastasia", "koreasouth"), 30),
  (("koreasouth", "eastasia"), 30),
  (("eastasia", "australiaeast"), 110),
  (("australiaeast", "eastasia"), 110),
  (("southeastasia", "australiaeast"), 78),
  (("australiaeast", "southeastasia"), 78),
  (("southeastasia", "australiasoutheast"), 80),
  (("australiasoutheast", "southeastasia"), 80),
  (("southeastasia", "japaneast"), 60),
  (("japaneast", "southeastasia"), 60),
  (("southeastasia", "koreacentral"), 56),
  (("koreacentral", "southeastasia"), 56),
  (("southeastasia", "centralindia"), 50),
  (("centralindia", "southeastasia"), 50),
  (("japaneast", "japanwest"), 8),
  (("japanwest", "japaneast"), 8),
  (("japaneast", "koreacentral"), 20),
  (("koreacentral", "japaneast"), 20),
  (("koreacentral", "koreasouth"), 6),
  (("koreasouth", "koreacentral"), 6),
  (("australiaeast", "australiasoutheast"), 6),
  (("australiasoutheast", "australiaeast"), 6),
  (("australiaeast", "australiacentral"), 4),
  (("australiacentral", "australiaeast"), 4),
  (("centralindia", "southindia"), 12),
  (("southindia", "centralindia"), 12),
  (("centralindia", "westindia"), 16),
  (("westindia", "centralindia"), 16),
  (("eastus", "westeurope"), 80),
  (("westeurope", "eastus"), 80),
  (("eastus", "northeurope"), 76),
  (("northeurope", "eastus"), 76),
  (("eastus", "uksouth"), 74),
  (("uksouth", "eastus"), 74),
  (("eastus", "francecentral"), 82),
  (("francecentral", "eastus"), 82),
  (("westus2", "eastasia"), 140),
  (("eastasia", "westus2"), 140),
  (("westus2", "japaneast"), 100),
  (("japaneast", "westus2"), 100),
  (("westus2", "southeastasia"), 158),
  (("southeastasia", "westus2"), 158),
  (("westeurope", "eastasia"), 180),
  (("eastasia", "westeurope"), 180),
  (("westeurope", "southeastasia"), 170),
  (("southeastasia", "westeurope"), 170),
  (("westeurope", "centralindia"), 110),
  (("centralindia", "westeurope"), 110),
  (("uaenorth", "uaecentral"), 4),
  (("uaecentral", "uaenorth"), 4),
  (("uaenorth", "westeurope"), 100),
  (("westeurope", "uaenorth"), 100),
  (("uaenorth", "centralindia"), 50),
  (("centralindia", "uaenorth"), 50),
  (("southafricanorth", "southafricawest"), 8),
  (("southafricawest", "southafricanorth"), 8),
  (("southafricanorth", "westeurope"), 140),
  (("westeurope", "southafricanorth"), 140),
  (("brazilsouth", "brazilsoutheast"), 6),
  (("brazilsoutheast", "brazilsouth"), 6),
  (("brazilsouth", "eastus"), 120),
  (("eastus", "brazilsouth"), 120),
  (("brazilsouth", "eastus2"), 118),
  (("eastus2", "brazilsouth"), 118)]


/-- The explicit value of `list_known_pairs` (113 canonical entries), proved
equal to the computed list in `list_known_pairs_eq` below. -/
def knownPairsList : List (String × String × Nat) := [
  ("australiacentral", "australiaeast", 4),
  ("australiaeast", "australiasoutheast", 6),
  ("australiaeast", "eastasia", 110),
  ("australiaeast", "southeastasia", 78),
  ("australiasoutheast", "southeastasia", 80),
  ("brazilsouth", "brazilsoutheast", 6),
  ("brazilsouth", "eastus", 120),
  ("brazilsouth", "eastus2", 118),
  ("canadacentral", "canadaeast", 8),
  ("canadacentral", "eastus", 16),
  ("canadacentral", "eastus2", 18),
  ("canadacentral", "northcentralus", 14),
  ("canadaeast", "eastus", 20),
  ("centralindia", "southeastasia", 50),
  ("centralindia", "southindia", 12),
  ("centralindia", "uaenorth", 50),
  ("centralindia", "westeurope", 110),
  ("centralindia", "westindia", 16),
  ("centralus", "eastus", 20),
  ("centralus", "eastus2", 18),
  ("centralus", "northcentralus", 6),
  ("centralus", "southcentralus", 16),
  ("centralus", "westcentralus", 14),
  ("centralus", "westus", 44),
  ("centralus", "westus2", 42),
  ("centralus", "westus3", 38),
  ("eastasia", "japaneast", 30),
  ("eastasia", "japanwest", 34),
  ("eastasia", "koreacentral", 28),
  ("eastasia", "koreasouth", 30),
  ("eastasia", "southeastasia", 32),
  ("eastasia", "westeurope", 180),
  ("eastasia", "westus2", 140),
  ("eastus", "eastus2", 4),
  ("eastus", "francecentral", 82),
  ("eastus", "northcentralus", 18),
  ("eastus", "northeurope", 76),
  ("eastus", "southcentralus", 28),
  ("eastus", "uksouth", 74),
  ("eastus", "westcentralus", 36),
  ("eastus", "westeurope", 80),
  ("eastus", "westus", 62),
  ("eastus", "westus2", 62),
  ("eastus", "westus3", 56),
  ("eastus2", "northcentralus", 16),
  ("eastus2", "southcentralus", 26),
  ("eastus2", "westus", 60),
  ("eastus2", "westus2", 60),
  ("eastus2", "westus3", 54),
  ("francecentral", "francesouth", 10),
  ("francecentral", "germanywestcentral", 10),
  ("francecentral", "italynorth", 12),
  ("francecentral", "northeurope", 22),
  ("francecentral", "norwayeast", 34),
  ("francecentral", "polandcentral", 24),
  ("francecentral", "spaincentral", 16),
  ("francecentral", "swedencentral", 32),
  ("francecentral", "switzerlandnorth", 9),
  ("francecentral", "uksouth", 10),
  ("francecentral", "ukwest", 12),
  ("francecentral", "westeurope", 12),
  ("francesouth", "westeurope", 16),
  ("germanywestcentral", "italynorth", 12),
  ("germanywestcentral", "northeurope", 18),
  ("germanywestcentral", "norwayeast", 28),
  ("germanywestcentral", "polandcentral", 14),
  ("germanywestcentral", "swedencentral", 26),
  ("germanywestcentral", "switzerlandnorth", 6),
  ("germanywestcentral", "westeurope", 8),
  ("italynorth", "switzerlandnorth", 8),
  ("italynorth", "westeurope", 14),
  ("japaneast", "japanwest", 8),
  ("japaneast", "koreacentral", 20),
  ("japaneast", "southeastasia", 60),
  ("japaneast", "westus2", 100),
  ("koreacentral", "koreasouth", 6),
  ("koreacentral", "southeastasia", 56),
  ("northcentralus", "southcentralus", 22),
  ("northcentralus", "westcentralus", 18),
  ("northcentralus", "westus", 40),
  ("northcentralus", "westus2", 38),
  ("northeurope", "norwayeast", 26),
  ("northeurope", "swedencentral", 24),
  ("northeurope", "switzerlandnorth", 22),
  ("northeurope", "uksouth", 12),
  ("northeurope", "ukwest", 14),
  ("northeurope", "westeurope", 14),
  ("norwayeast", "norwaywest", 8),
  ("norwayeast", "swedencentral", 12),
  ("norwayeast", "westeurope", 32),
  ("polandcentral", "swedencentral", 22),
  ("polandcentral", "westeurope", 22),
  ("southafricanorth", "southafricawest", 8),
  ("southafricanorth", "westeurope", 140),
  ("southcentralus", "westcentralus", 20),
  ("southcentralus", "westus", 36),
  ("southcentralus", "westus2", 34),
  ("southcentralus", "westus3", 30),
  ("southeastasia", "westeurope", 170),
  ("southeastasia", "westus2", 158),
  ("spaincentral", "westeurope", 20),
  ("swedencentral", "switzerlandnorth", 30),
  ("swedencentral", "westeurope", 30),
  ("switzerlandnorth", "switzerlandwest", 4),
  ("switzerlandnorth", "westeurope", 10),
  ("uaecentral", "uaenorth", 4),
  ("uaenorth", "westeurope", 100),
  ("uksouth", "ukwest", 6),
  ("uksouth", "westeurope", 8),
  ("ukwest", "westeurope", 10),
  ("westus", "westus2", 6),
  ("westus", "westus3", 12),
  ("westus2", "westus3", 10)]


/-- The unordered key of an entry of `list_known_pairs`:
`(min(a, b), max(a, b))`. -/
def ukey (e : Entry) : String × String :=
  (minStr e.1 e.2.1, maxStr e.1 e.2.1)

/-- Boolean check that a list of entries is sorted by the tuple key
`(regionA, regionB)` (adjacent entries in `entryLe` order). -/
def sortedByKey : List Entry → Bool
  | [] => true
  | [_] => true
  | p :: q :: r => entryLe p q && sortedByKey (q :: r)

/-! ### Module state and the public query calls, for the frame property -/

/-- The mutable module-level state of `latency.py`. -/
structure ModuleState where
  pairsTable : Dict
  cacheTable : Cache

/-- The module state after import: the table built by the `_add` calls and
the never-written cache. -/
def initialState : ModuleState :=
  ⟨_LATENCY_PAIRS, _cache⟩

/-- One public query call together with its arguments. -/
inductive QueryCall where
  | rttQuery (now : Nat) (a b : String)
  | pairsQuery
  | matrixQuery (now : Nat) (regions : List String)

/-- The value returned by a public query call. -/
inductive QueryResult where
  | rttResult (r : Option Nat)
  | pairsResult (l : List Entry)
  | matrixResult (m : List String × List (List (Option Nat)))

/-- Big-step semantics of one public query call: each of the three Python
function bodies only reads `_LATENCY_PAIRS` and `_cache` (no statement in
them assigns to a module-level name), so a call returns its value together
with the module state it was given. -/
def runQuery (st : ModuleState) : QueryCall → QueryResult × ModuleState
  | .rttQuery now a b =>
    (.rttResult (get_rtt_ms_impl st.pairsTable st.cacheTable now a b), st)
  | .pairsQuery =>
    (.pairsResult (list_known_pairs_impl st.pairsTable), st)
  | .matrixQuery now rs =>
    (.matrixResult (get_latency_matrix_impl st.pairsTable st.cacheTable now rs), st)

/-- The module state left behind by a sequence of public query calls. -/
def runQueries (st : ModuleState) (cs : List QueryCall) : ModuleState :=
  cs.foldl (fun s c => (runQuery s c).2) st

/-! ### Evaluation of the module data -/

set_option maxRecDepth 20000 in
/-- The dict built by the `_add` calls is the explicit 226-entry table. -/
theorem LATENCY_PAIRS_eq : _LATENCY_PAIRS = latencyTable := by
  rfl

set_option maxRecDepth 20000 in
/-- The computed `list_known_pairs()` is the explicit 113-entry list. -/
theorem list_known_pairs_eq : list_known_pairs = knownPairsList := by
  unfold list_known_pairs list_known_pairs_impl
  rw [LATENCY_PAIRS_eq]
  rfl

/-! ### Dictionary lemmas -/

/-- Lookup after a Python dict assignment: the assigned key maps to the new
value, every other key is unchanged. -/
theorem dictGet_dictInsert (d : Dict) (k : String × String) (v : Nat)
    (k' : String × String) :
    dictGet (dictInsert d k v) k' = if k' = k then some v else dictGet d k' := by
  induction d with
  | nil =>
    by_cases h : k' = k
    · subst h; simp [dictInsert, dictGet, List.find?_cons]
    · have hb : (k == k') = false := beq_eq_false_iff_ne.mpr (Ne.symm h)
      simp [dictInsert, dictGet, List.find?_cons, hb, h]
  | cons e d ih =>
    by_cases he : e.1 = k
    · have hb : (e.1 == k) = true := beq_iff_eq.mpr he
      by_cases h : k' = k
      · subst h
        simp [dictInsert, dictGet, List.find?_cons, hb, beq_iff_eq]
      · have hb2 : (k == k') = false := beq_eq_false_iff_ne.mpr (Ne.symm h)
        have hb3 : (e.1 == k') = false := by rw [he]; exact hb2
        simp [dictInsert, dictGet, List.find?_cons, hb, hb2, hb3, h]
    · have hb : (e.1 == k) = false := beq_eq_false_iff_ne.mpr he
      by_cases hk : e.1 = k'
      · have hb2 : (e.1 == k') = true := beq_iff_eq.mpr hk
        have hkk : ¬ k' = k := fun hkk => he (hk.trans hkk)
        simp [dictInsert, dictGet, List.find?_cons, hb, hb2, hkk]
      · have hb2 : (e.1 == k') = false := beq_eq_false_iff_ne.mpr hk
        simpa [dictInsert, dictGet, List.find?_cons, hb, hb2] using ih

/-- Lookup after `_add`: both registered orderings map to the new value. -/
theorem dictGet_add (d : Dict) (a b : String) (r : Nat) (k : String × String) :
    dictGet (_add d a b r) k =
      if k = (b, a) then some r else if k = (a, b) then some r else dictGet d k := by
  unfold _add
  rw [dictGet_dictInsert, dictGet_dictInsert]

/-- `_add` preserves symmetry of the dict. -/
theorem symm_add (d : Dict) (hd : ∀ x y, dictGet d (x, y) = dictGet d (y, x))
    (a b : String) (r : Nat) :
    ∀ x y, dictGet (_add d a b r) (x, y) = dictGet (_add d a b r) (y, x) := by
  intro x y
  have e1 : ((y, x) = (b, a)) ↔ ((x, y) = (a, b)) := by
    simp only [Prod.mk.injEq]; exact and_comm
  have e2 : ((y, x) = (a, b)) ↔ ((x, y) = (b, a)) := by
    simp only [Prod.mk.injEq]; exact and_comm
  rw [dictGet_add, dictGet_add, hd x y,
    if_congr e1 rfl (if_congr e2 rfl rfl)]
  by_cases h1 : (x, y) = (a, b) <;> by_cases h2 : (x, y) = (b, a) <;> simp [h1, h2]

/-- Folding `_add` over any data list preserves symmetry of the dict. -/
theorem symm_foldl (l : List (String × String × Nat)) :
    ∀ d : Dict, (∀ x y, dictGet d (x, y) = dictGet d (y, x)) →
    ∀ x y, dictGet (l.foldl (fun d t => _add d t.1 t.2.1 t.2.2) d) (x, y) =
      dictGet (l.foldl (fun d t => _add d t.1 t.2.1 t.2.2) d) (y, x) := by
  induction l with
  | nil => intro d hd; exact hd
  | cons t l ih =>
    intro d hd
    exact ih (_add d t.1 t.2.1 t.2.2) (symm_add d hd t.1 t.2.1 t.2.2)

/-- The static latency table is symmetric. -/
theorem LATENCY_PAIRS_symm (x y : String) :
    dictGet _LATENCY_PAIRS (x, y) = dictGet _LATENCY_PAIRS (y, x) :=
  symm_foldl latencyData [] (fun _ _ => rfl) x y

/-! ### Normalization lemmas -/

/-- `Char.ofNat` round-trips on the code points of lower-case ASCII letters. -/
theorem toNat_ofNat_valid (n : Nat) (h1 : 97 ≤ n) (h2 : n ≤ 122) :
    (Char.ofNat n).toNat = n := by
  have hv : n.isValidChar := Or.inl (by omega)
  simp [Char.ofNat, hv, Char.ofNatAux, Char.toNat, UInt32.ofNat', UInt32.toNat,
    BitVec.toNat_ofNatLt]

/-- ASCII lower-casing is idempotent. -/
theorem pyLowerChar_idem (c : Char) : pyLowerChar (pyLowerChar c) = pyLowerChar c := by
  unfold pyLowerChar
  split
  · rename_i h
    have ht : (Char.ofNat (c.toNat + 32)).toNat = c.toNat + 32 :=
      toNat_ofNat_valid _ (by omega) (by omega)
    rw [if_neg]
    omega
  · rfl

/-- `dropWhile` is idempotent. -/
theorem dropWhile_idem (p : Char → Bool) (l : List Char) :
    (l.dropWhile p).dropWhile p = l.dropWhile p := by
  induction l with
  | nil => rfl
  | cons a t ih =>
    by_cases h : p a = true
    · simp [List.dropWhile_cons, h, ih]
    · simp [List.dropWhile_cons, h]

/-- The head of a `dropWhile` result falsifies the predicate. -/
theorem dropWhile_head_false (p : Char → Bool) (l : List Char) (c : Char)
    (t : List Char) (h : l.dropWhile p = c :: t) : p c = false := by
  induction l with
  | nil => simp at h
  | cons a r ih =>
    by_cases ha : p a = true
    · rw [List.dropWhile_cons, if_pos ha] at h
      exact ih h
    · rw [List.dropWhile_cons, if_neg ha] at h
      cases h
      simpa using ha

/-- `dropWhile` fixes a list whose head falsifies the predicate. -/
theorem dropWhile_eq_self_of_head (p : Char → Bool) (l : List Char)
    (h : ∀ c, l.head? = some c → p c = false) : l.dropWhile p = l := by
  cases l with
  | nil => rfl
  | cons a t =>
    rw [List.dropWhile_cons, if_neg]
    simp [h a rfl]

/-- Stripping is idempotent. -/
theorem pyStripL_idem (l : List Char) : pyStripL (pyStripL l) = pyStripL l := by
  unfold pyStripL
  set y := l.dropWhile pyIsSpace with hy
  set u := y.reverse.dropWhile pyIsSpace with hu
  have h1 : u.reverse.dropWhile pyIsSpace = u.reverse := by
    apply dropWhile_eq_self_of_head
    intro c hc
    rw [List.head?_reverse] at hc
    cases hyc : y with
    | nil =>
      rw [hu, hyc] at hc
      simp at hc
    | cons d m =>
      have hd : pyIsSpace d = false := dropWhile_head_false pyIsSpace l d m (hy ▸ hyc)
      have hne : u ≠ [] := by
        rw [hu]
        intro hnil
        rw [List.dropWhile_eq_nil_iff] at hnil
        have hdm : d ∈ y.reverse := by rw [List.mem_reverse, hyc]; exact List.mem_cons_self d m
        have := hnil d hdm
        rw [hd] at this
        exact Bool.false_ne_true this
      obtain ⟨w, hw⟩ : u <:+ y.reverse := hu ▸ List.dropWhile_suffix pyIsSpace
      have hlast : u.getLast? = y.reverse.getLast? := by
        rw [← hw, List.getLast?_append]
        cases hul : u.getLast? with
        | none => exact absurd (List.getLast?_eq_none_iff.mp hul) hne
        | some z => rfl
      rw [hlast, List.getLast?_reverse, hyc] at hc
      simp at hc
      rw [← hc]
      exact hd
  rw [h1, List.reverse_reverse, hu, dropWhile_idem]

/-- Every character surviving a strip was in the original list. -/
theorem mem_pyStripL (l : List Char) (c : Char) (h : c ∈ pyStripL l) : c ∈ l := by
  unfold pyStripL at h
  rw [List.mem_reverse] at h
  have h2 := (List.dropWhile_sublist pyIsSpace).mem h
  rw [List.mem_reverse] at h2
  exact (List.dropWhile_sublist pyIsSpace).mem h2

/-- Mapping `pyLowerChar` fixes a list of already-lowered characters. -/
theorem map_pyLowerChar_fix (l : List Char) (h : ∀ c ∈ l, pyLowerChar c = c) :
    l.map pyLowerChar = l := by
  calc l.map pyLowerChar = l.map id := List.map_congr_left h
  _ = l := List.map_id l

/-- `lower().strip()` normalization is idempotent. -/
theorem pyNormalize_idem (s : String) : pyNormalize (pyNormalize s) = pyNormalize s := by
  show String.mk (pyStripL ((pyStripL (s.data.map pyLowerChar)).map pyLowerChar))
    = String.mk (pyStripL (s.data.map pyLowerChar))
  have hfix : (pyStripL (s.data.map pyLowerChar)).map pyLowerChar
      = pyStripL (s.data.map pyLowerChar) := by
    apply map_pyLowerChar_fix
    intro c hc
    have hcm : c ∈ s.data.map pyLowerChar := mem_pyStripL _ c hc
    obtain ⟨x, _, rfl⟩ := List.mem_map.mp hcm
    exact pyLowerChar_idem x
  rw [hfix, pyStripL_idem]

/-- `get_rtt_ms` only depends on the normalized forms of its arguments. -/
theorem get_rtt_ms_impl_norm (pairs : Dict) (cache : Cache) (now : Nat)
    (a b : String) :
    get_rtt_ms_impl pairs cache now (pyNormalize a) (pyNormalize b)
      = get_rtt_ms_impl pairs cache now a b := by
  simp only [get_rtt_ms_impl, pyNormalize_idem]

/-! ### Facts about the concrete data -/

set_option maxRecDepth 20000 in
/-- Every RTT value stored in the static dataset is strictly positive. -/
theorem latency_values_pos : ∀ kv ∈ _LATENCY_PAIRS, 0 < kv.2 := by
  rw [LATENCY_PAIRS_eq]
  decide

/-- A successful static lookup returns a strictly positive value. -/
theorem dictGet_pos (k : String × String) (v : Nat)
    (h : dictGet _LATENCY_PAIRS k = some v) : 0 < v := by
  unfold dictGet at h
  cases hf : _LATENCY_PAIRS.find? (fun e => e.1 == k) with
  | none => rw [hf] at h; exact absurd h (by simp)
  | some e =>
    rw [hf] at h
    have he : e.2 = v := by simpa using h
    exact he ▸ latency_values_pos e (List.mem_of_find?_eq_some hf)

set_option maxRecDepth 20000 in
/-- Entries of the known-pairs list are normalized, distinct in their two
components, and present in the static table under their own key. -/
theorem knownPairs_facts : ∀ e ∈ knownPairsList,
    pyNormalize e.1 = e.1 ∧ pyNormalize e.2.1 = e.2.1 ∧ e.1 ≠ e.2.1 ∧
    dictGet latencyTable (e.1, e.2.1) = some e.2.2 := by
  decide

set_option maxRecDepth 20000 in
/-- Entries of the known-pairs list are in canonical orientation. -/
theorem knownPairs_le : ∀ e ∈ knownPairsList, pyStrLe e.1 e.2.1 = true := by
  decide

/-! ### State-machine lemmas for the query API -/

/-- A single public query call leaves the module state unchanged. -/
theorem runQuery_state (st : ModuleState) (c : QueryCall) : (runQuery st c).2 = st := by
  cases c <;> rfl

/-- Any sequence of public query calls leaves the module state unchanged. -/
theorem runQueries_eq (st : ModuleState) (cs : List QueryCall) :
    runQueries st cs = st := by
  induction cs with
  | nil => rfl
  | cons c rest ih =>
    show runQueries ((runQuery st c).2) rest = st
    rw [runQuery_state]
    exact ih

/-! ### Claim theorems -/

/-- C1: for every pair of input strings whose normalized (lower-cased,
whitespace-trimmed) forms are equal, `get_rtt_ms` returns 0, including when
the region appears nowhere in the latency table. -/
theorem c1_normalized_equal_rtt_zero (now : Nat) (a b : String)
    (h : pyNormalize a = pyNormalize b) : get_rtt_ms now a b = some 0 := by
  simp only [get_rtt_ms, get_rtt_ms_impl]
  rw [if_pos h]

/-- Witness for C1 at a region absent from the table. -/
theorem c1_normalized_equal_rtt_zero_witness :
    pyNormalize " AtlantisNorth " = pyNormalize "atlantisnorth" ∧
    get_rtt_ms 0 " AtlantisNorth " "atlantisnorth" = some 0 :=
  ⟨by decide, c1_normalized_equal_rtt_zero 0 " AtlantisNorth " "atlantisnorth" (by decide)⟩

/-- C2: `get_rtt_ms` is symmetric in its two region arguments, for known and
unknown regions alike. -/
theorem c2_get_rtt_ms_symm (now : Nat) (a b : String) :
    get_rtt_ms now a b = get_rtt_ms now b a := by
  simp only [get_rtt_ms, get_rtt_ms_impl]
  by_cases h : pyNormalize a = pyNormalize b
  · rw [if_pos h, if_pos h.symm]
  · rw [if_neg h, if_neg (Ne.symm h),
      LATENCY_PAIRS_symm (pyNormalize a) (pyNormalize b)]
    cases dictGet _LATENCY_PAIRS (pyNormalize b, pyNormalize a) <;> simp [_cache]

/-- C3: when the two normalized forms differ and neither ordering of the
normalized pair is registered in the latency table, `get_rtt_ms` returns the
absent sentinel `none` rather than raising. -/
theorem c3_unknown_pair_none (now : Nat) (a b : String)
    (h : pyNormalize a ≠ pyNormalize b)
    (hab : dictGet _LATENCY_PAIRS (pyNormalize a, pyNormalize b) = none)
    (hba : dictGet _LATENCY_PAIRS (pyNormalize b, pyNormalize a) = none) :
    get_rtt_ms now a b = none := by
  simp only [get_rtt_ms, get_rtt_ms_impl]
  rw [if_neg h, hab]
  simp [_cache]

set_option maxRecDepth 20000 in
/-- Witness for C3 at a concrete unknown pair. -/
theorem c3_unknown_pair_none_witness :
    pyNormalize "francecentral" ≠ pyNormalize "atlantisnorth" ∧
    get_rtt_ms 0 "francecentral" "atlantisnorth" = none :=
  ⟨by decide, c3_unknown_pair_none 0 "francecentral" "atlantisnorth" (by decide)
    (by rw [LATENCY_PAIRS_eq]; decide) (by rw [LATENCY_PAIRS_eq]; decide)⟩

set_option maxRecDepth 20000 in
/-- C4: `list_known_pairs()` has pairwise distinct unordered keys (each
storage ordering collapsed to one entry), is sorted by `(regionA, regionB)`,
and covers every key of the table. -/
theorem c4_list_pairs_unique_sorted :
    list_known_pairs.Pairwise (fun p q => ukey p ≠ ukey q) ∧
    sortedByKey list_known_pairs = true ∧
    ∀ kv ∈ _LATENCY_PAIRS, ∃ e ∈ list_known_pairs,
      e.1 = minStr kv.1.1 kv.1.2 ∧ e.2.1 = maxStr kv.1.1 kv.1.2 ∧ e.2.2 = kv.2 := by
  rw [list_known_pairs_eq, LATENCY_PAIRS_eq]
  exact ⟨by decide, by decide, by decide⟩

set_option maxRecDepth 20000 in
/-- Witness for C4: the first `_add`ed key is covered by the returned list. -/
theorem c4_list_pairs_unique_sorted_witness :
    ∃ e ∈ list_known_pairs,
      e.1 = minStr "francecentral" "francesouth" ∧
      e.2.1 = maxStr "francecentral" "francesouth" ∧ e.2.2 = 10 :=
  c4_list_pairs_unique_sorted.2.2 (("francecentral", "francesouth"), 10)
    (by rw [LATENCY_PAIRS_eq]; decide)

/-- C5: `get_latency_matrix` returns the element-wise normalized input as
`regions` (order and duplicates preserved) and an N×N matrix whose cell
`[i][j]` is `get_rtt_ms(regions[i], regions[j])`; the empty input yields an
empty matrix and a single-element input yields `[[0]]`. -/
theorem c5_matrix_spec (now : Nat) (rs : List String) :
    (get_latency_matrix now rs).1 = rs.map pyNormalize ∧
    (get_latency_matrix now rs).2.length = rs.length ∧
    (∀ i j, i < rs.length → j < rs.length →
      (((get_latency_matrix now rs).2.getD i []).getD j none
        = get_rtt_ms now (rs.getD i "") (rs.getD j ""))) ∧
    (rs = [] → (get_latency_matrix now rs).2 = []) ∧
    (∀ x, rs = [x] → (get_latency_matrix now rs).2 = [[some 0]]) := by
  refine ⟨rfl, by simp [get_latency_matrix, get_latency_matrix_impl], ?_, ?_, ?_⟩
  · intro i j hi hj
    simp only [get_latency_matrix, get_latency_matrix_impl, get_rtt_ms,
      List.getD_eq_getElem?_getD, List.getElem?_map,
      List.getElem?_eq_getElem hi, List.getElem?_eq_getElem hj,
      Option.map_some', Option.getD_some]
    exact get_rtt_ms_impl_norm _ _ now _ _
  · intro h; subst h; rfl
  · intro x h; subst h
    simp only [get_latency_matrix, get_latency_matrix_impl, List.map_cons,
      List.map_nil]
    have hcell : get_rtt_ms_impl _LATENCY_PAIRS _cache now
        (pyNormalize x) (pyNormalize x) = some 0 := by
      simp [get_rtt_ms_impl]
    rw [hcell]

/-- Witness for C5: the diagonal cell of a one-region matrix. -/
theorem c5_matrix_spec_witness :
    (((get_latency_matrix 0 [" EastUS "]).2.getD 0 []).getD 0 none
      = get_rtt_ms 0 ([" EastUS "].getD 0 "") ([" EastUS "].getD 0 "")) :=
  (c5_matrix_spec 0 [" EastUS "]).2.2.1 0 0 (by decide) (by decide)

/-- C6: `get_rtt_ms` is invariant under canonicalization of its arguments:
differing case or surrounding whitespace never changes the result. -/
theorem c6_normalization_invariant (now : Nat) (a b : String) :
    get_rtt_ms now a b = get_rtt_ms now (pyNormalize a) (pyNormalize b) :=
  (get_rtt_ms_impl_norm _LATENCY_PAIRS _cache now a b).symm

/-- C7: the three public query operations never modify the module state
(the latency table and the cache), so after any sequence of query calls the
state is unchanged and every subsequent query returns what it would have
returned initially. -/
theorem c7_queries_pure (st : ModuleState) (cs : List QueryCall) :
    runQueries st cs = st ∧
    ∀ c : QueryCall, (runQuery (runQueries st cs) c).1 = (runQuery st c).1 :=
  ⟨runQueries_eq st cs, fun c => by rw [runQueries_eq]⟩

/-- C8: every entry returned by `list_known_pairs` is in canonical
orientation: `regionA` is lexicographically at most `regionB`. -/
theorem c8_canonical_orientation (e : Entry) (he : e ∈ list_known_pairs) :
    pyStrLe e.1 e.2.1 = true :=
  knownPairs_le e (list_known_pairs_eq ▸ he)

set_option maxRecDepth 20000 in
/-- Witness for C8 at the first returned entry. -/
theorem c8_canonical_orientation_witness :
    pyStrLe "australiacentral" "australiaeast" = true :=
  c8_canonical_orientation ("australiacentral", "australiaeast", 4)
    (by rw [list_known_pairs_eq]; decide)

/-- C9: enumeration and lookup agree: every entry of `list_known_pairs` has
`get_rtt_ms regionA regionB = rttMs`. -/
theorem c9_enumeration_lookup_agree (now : Nat) (e : Entry)
    (he : e ∈ list_known_pairs) : get_rtt_ms now e.1 e.2.1 = some e.2.2 := by
  rw [list_known_pairs_eq] at he
  obtain ⟨h1, h2, h3, h4⟩ := knownPairs_facts e he
  simp only [get_rtt_ms, get_rtt_ms_impl, h1, h2]
  rw [if_neg h3, LATENCY_PAIRS_eq, h4]

set_option maxRecDepth 20000 in
/-- Witness for C9 at the first returned entry. -/
theorem c9_enumeration_lookup_agree_witness :
    get_rtt_ms 0 "australiacentral" "australiaeast" = some 4 :=
  c9_enumeration_lookup_agree 0 ("australiacentral", "australiaeast", 4)
    (by rw [list_known_pairs_eq]; decide)

/-- C10: every RTT value registered in the static dataset is strictly
positive, and consequently `get_rtt_ms` returns 0 exactly on pairs whose
normalized forms are equal. -/
theorem c10_zero_iff_self :
    (∀ kv ∈ _LATENCY_PAIRS, 0 < kv.2) ∧
    ∀ now a b, (get_rtt_ms now a b = some 0 ↔ pyNormalize a = pyNormalize b) := by
  refine ⟨latency_values_pos, fun now a b => ⟨fun h => ?_, fun h => ?_⟩⟩
  · by_contra hne
    simp only [get_rtt_ms, get_rtt_ms_impl] at h
    rw [if_neg hne] at h
    cases hv : dictGet _LATENCY_PAIRS (pyNormalize a, pyNormalize b) with
    | none => rw [hv] at h; simp [_cache] at h
    | some v =>
      rw [hv] at h
      have hv0 : v = 0 := by simpa using h
      have hpos := dictGet_pos _ v hv
      omega
  · simp only [get_rtt_ms, get_rtt_ms_impl]
    rw [if_pos h]

/-- Witness for C10: the reverse direction at a same-region pair written in
two different spellings. -/
theorem c10_zero_iff_self_witness :
    get_rtt_ms 0 " EastUS" "eastus " = some 0 :=
  (c10_zero_iff_self.2 0 " EastUS" "eastus ").mpr (by decide)

end AzLatency
